import Mathlib

/-!
Shallow embedding of `src/api/ios/mod.rs` (the iOS backend of glutin).

Objective-C object pointers (`id`) are modelled as integers, with `0`
standing for `nil`.  Host-runtime responses (window build success, the
EAGL context handle returned by `initWithAPI:`, the `BOOL` answers of
`setCurrentContext:` and `renderbufferStorage:fromDrawable:`, the
framebuffer status) are inputs collected in a `HostEnv` record, so every
run of the embedded code is a pure function of the environment.  A Rust
panic (`panic!`, `unwrap` on `None`/`Err`, `unimplemented!`) is modelled
as the `none` / dedicated-outcome branch of the embedded function.
-/

/-- The Objective-C `BOOL` value `YES` (`1`). -/
def YES : Int := 1

/-- The Objective-C `BOOL` value `NO` (`0`). -/
def NO : Int := 0

/-- `const VIEW_CLASS: &'static str = "MainView";` from the source. -/
def VIEW_CLASS : String := "MainView"

/-- The Objective-C class registry of the process: the list of class names
already registered.  `objc_allocateClassPair` (reached through
`ClassDecl::new` in the `objc` crate) fails, returning `None`, exactly
when a class of the requested name is already registered. -/
abbrev ClassRegistry := List String

/-- Embedding of `fn create_uiview_class()` (src lines 266-305).  It calls
`ClassDecl::new(VIEW_CLASS, superclass).unwrap()` and then registers the
declared class.  `ClassDecl::new` returns `None` when a class named
`VIEW_CLASS` is already registered, and the `.unwrap()` then panics:
modelled as `none`.  Otherwise the class is registered. -/
def create_uiview_class (reg : ClassRegistry) : Option ClassRegistry :=
  if VIEW_CLASS ∈ reg then none
  else some (VIEW_CLASS :: reg)

/-- Running the registration routine `n` times starting from a registry in
which the view class is not yet present (a fresh process), propagating a
panic.  This is what creating `n` Contexts in one process does to the
class registry, since `Context::new` calls `create_uiview_class`
unconditionally. -/
def registerTimes : Nat → Option ClassRegistry
  | 0 => some []
  | n + 1 => (registerTimes n).bind create_uiview_class

/-- The five host lifecycle notifications documented in the module header
(src lines 49-53). -/
inductive HostNotification
  | didBecomeActive
  | willResignActive
  | didEnterBackground
  | willEnterForeground
  | willTerminate
deriving DecidableEq, Repr

/-- The glutin events produced from the host lifecycle notifications
(`Event` variants named in the module header, src lines 49-53). -/
inductive GlutinEvent
  | Focused (b : Bool)
  | Suspended (b : Bool)
  | Closed
deriving DecidableEq, Repr

/-- The lifecycle mapping table of the module documentation
(src lines 49-53): each host notification is represented as the listed
glutin event. -/
def lifecycleEvent : HostNotification → GlutinEvent
  | .didBecomeActive => .Focused true
  | .willResignActive => .Focused false
  | .didEnterBackground => .Suspended true
  | .willEnterForeground => .Suspended false
  | .willTerminate => .Closed

/-- `GL_FRAMEBUFFER_COMPLETE` (`0x8CD5`), the status
`gl.CheckFramebufferStatus` must report for a complete framebuffer. -/
def FRAMEBUFFER_COMPLETE : Nat := 0x8CD5

/-- `pub struct Context` (src lines 101-104): the two native handles. -/
structure Context where
  eagl_context : Int
  view : Int
deriving DecidableEq, Repr

/-- Host-runtime responses consumed by one run of `Context::new`. -/
structure HostEnv where
  windowBuildOk : Bool
  eaglHandle : Int
  viewHandle : Int
  setCurrentOk : Bool
  renderbufferStorageOk : Bool
  framebufferStatus : Nat
deriving Repr

/-- Thread state of the host GL runtime: the thread-bound current EAGL
context (`0` when none is current). -/
structure HostState where
  currentContext : Int
deriving DecidableEq, Repr

/-- The `ContextError` values produced by this backend. -/
inductive ContextError
  | IoError (msg : String)
deriving DecidableEq, Repr

/-- `+[EAGLContext setCurrentContext:]`: when the host accepts the switch
(`ok`), the thread's current context becomes `ctx` and the call answers
`YES`; otherwise the state is unchanged and the call answers `NO`. -/
def setCurrentContext (st : HostState) (ctx : Int) (ok : Bool) :
    Int × HostState :=
  if ok then (YES, { currentContext := ctx }) else (NO, st)

/-- Embedding of `Context::make_current` (src lines 207-219): sends
`setCurrentContext:` with this handle's context and returns `Ok` iff the
answer is `YES`, otherwise the documented `IoError`. -/
def Context.make_current (c : Context) (st : HostState) (ok : Bool) :
    Except ContextError Unit × HostState :=
  let r := setCurrentContext st c.eagl_context ok
  if r.1 = YES then (.ok (), r.2)
  else (.error (.IoError "EAGLContext::setCurrentContext unsuccessful"), r.2)

/-- Embedding of `Context::is_current` (src lines 242-248): asks the host
for the current context and compares it to this handle's context by
identity. -/
def Context.is_current (c : Context) (st : HostState) : Bool :=
  st.currentContext = c.eagl_context

/-- Embedding of `Context::create_context` (src lines 199-205): allocates
`EAGLContext` and sends `initWithAPI:2`, returning whatever handle the
host produced — the handle is not inspected (no null check). -/
def Context.create_context (env : HostEnv) : Int :=
  env.eaglHandle

/-- Embedding of `Context::init_context` (src lines 144-197).  The result
of the internal `make_current` is bound to `_` (src line 159) and
discarded.  If `renderbufferStorage:fromDrawable:` does not answer `YES`
the code panics (`none`); if `CheckFramebufferStatus` is not
`FRAMEBUFFER_COMPLETE` the code panics (`none`); otherwise the run
completes with the host state left by the `make_current` call. -/
def Context.init_context (c : Context) (env : HostEnv) (st : HostState) :
    Option HostState :=
  let r := c.make_current st env.setCurrentOk
  if env.renderbufferStorageOk = false then none
  else if env.framebufferStatus ≠ FRAMEBUFFER_COMPLETE then none
  else some r.2

/-- Outcome of one run of `Context::new`: the `Err(CreationError)` path
(from `try!(window_builder.build(..))`), a process abort (panic), or the
built pair. -/
inductive NewOutcome
  | err
  | panicked
  | ok (c : Context) (st : HostState) (reg : ClassRegistry)
deriving DecidableEq, Repr

/-- Embedding of `Context::new` (src lines 107-142): build the window
(`try!` surfaces a `CreationError`), call `create_context` (no check on
the handle), call `create_uiview_class` (panics on a duplicate
registration), build the `Context` value from the two handles, then run
`init_context` (which can panic).  On success the built `Context` is
returned. -/
def Context.new (reg : ClassRegistry) (env : HostEnv) (st : HostState) :
    NewOutcome :=
  if env.windowBuildOk = false then .err
  else
    match create_uiview_class reg with
    | none => .panicked
    | some reg' =>
      match Context.init_context
          ⟨Context.create_context env, env.viewHandle⟩ env st with
      | none => .panicked
      | some st' =>
        .ok ⟨Context.create_context env, env.viewHandle⟩ st' reg'

/-- Embedding of `Context::resize` (src lines 260-263): the body is empty,
nothing is read or written. -/
def Context.resize (c : Context) (st : HostState) (_width _height : Nat) :
    Context × HostState :=
  (c, st)

/-- A pixel format description.  The backend never constructs one, so the
type is kept abstract with a single placeholder constructor. -/
inductive PixelFormat
  | mk
deriving DecidableEq, Repr

/-- Embedding of `Context::get_pixel_format` (src lines 255-258): the body
is `unimplemented!()`, which panics unconditionally — modelled as `none`,
never `some`. -/
def Context.get_pixel_format (_c : Context) : Option PixelFormat :=
  none

/-- Byte string of a Rust `&str` or of a C symbol name; a byte is a `Nat`
and `0` is the NUL byte. -/
abbrev Bytes := List Nat

/-- `CString::new` from the Rust standard library: fails exactly when the
byte string contains a NUL byte. -/
def cstringNew (s : Bytes) : Option Bytes :=
  if s.contains 0 then none else some s

/-- A dynamic library as `dlopen` exposes it: a table of exported symbols
with their (non-null) addresses. -/
structure DynLib where
  symbols : List (Bytes × Int)
deriving Repr

/-- `dlsym`: the exported address of the symbol, or the null pointer `0`
when the library does not export the name. -/
def dlsym (lib : DynLib) (name : Bytes) : Int :=
  match lib.symbols.lookup name with
  | some p => p
  | none => 0

/-- Embedding of `Context::get_proc_address` (src lines 221-228): convert
the name to a C string — the `unwrap` panics on an interior NUL byte,
modelled as `none` — then open the GLES system library and look the name
up with `dlsym`.  The library path is a NUL-free string literal, so its
own `CString::new(..).unwrap()` never panics and is elided here. -/
def Context.get_proc_address (_c : Context) (lib : DynLib) (addr : Bytes) :
    Option Int :=
  match cstringNew addr with
  | none => none
  | some a => some (dlsym lib a)

/-- The byte string of the symbol name glClear. -/
def glClearSym : Bytes := [103, 108, 67, 108, 101, 97, 114]

/-- C1: the claim says registering the view type N times yields exactly one
registered type, every creation after the first reusing the registered
class.  Counterexample at N = 2: the second run of `create_uiview_class`
hits `ClassDecl::new(VIEW_CLASS, ..) = None` (the name is taken) and the
`.unwrap()` panics, so the second registration attempt aborts instead of
reusing the class. -/
theorem registerTimes_two_panics :
    registerTimes 2 = none ∧ registerTimes 2 ≠ some [VIEW_CLASS] := by
  constructor
  · decide
  · decide

/-- C1 (amended): the first registration succeeds and registers the view
class exactly once; every run of the routine after the first panics on the
duplicate-registration attempt (`ClassDecl::new` returns `None` and the
`unwrap` aborts), rather than detecting and reusing the registered type. -/
theorem registerTimes_once_then_panic :
    registerTimes 1 = some [VIEW_CLASS] ∧
      ∀ n : Nat, 2 ≤ n → registerTimes n = none := by
  refine ⟨by decide, ?_⟩
  intro n hn
  induction n with
  | zero => omega
  | succ m ih =>
    rcases Nat.lt_or_ge m 2 with hm | hm
    · interval_cases m
      · omega
      · decide
    · have := ih hm
      simp [registerTimes, this]

/-- C1 witness: the amended statement applied at n = 2. -/
theorem registerTimes_once_then_panic_witness :
    registerTimes 2 = none :=
  registerTimes_once_then_panic.2 2 (by decide)

/-- C2: the lifecycle mapping is exact and total: each of the five host
notifications maps to precisely the documented event, no other event is
produced from these inputs, and the sequence active, will-resign-active,
entered-background, will-terminate maps to exactly
[Focused true, Focused false, Suspended true, Closed] in order. -/
theorem lifecycleEvent_exact_total :
    lifecycleEvent .didBecomeActive = .Focused true ∧
    lifecycleEvent .willResignActive = .Focused false ∧
    lifecycleEvent .didEnterBackground = .Suspended true ∧
    lifecycleEvent .willEnterForeground = .Suspended false ∧
    lifecycleEvent .willTerminate = .Closed ∧
    (∀ n : HostNotification,
      lifecycleEvent n = .Focused true ∨ lifecycleEvent n = .Focused false ∨
      lifecycleEvent n = .Suspended true ∨ lifecycleEvent n = .Suspended false ∨
      lifecycleEvent n = .Closed) ∧
    [HostNotification.didBecomeActive, .willResignActive,
      .didEnterBackground, .willTerminate].map lifecycleEvent =
      [GlutinEvent.Focused true, .Focused false, .Suspended true, .Closed] := by
  refine ⟨rfl, rfl, rfl, rfl, rfl, ?_, rfl⟩
  intro n
  cases n <;> simp [lifecycleEvent]

/-- C3: if the renderbuffer-storage allocation fails or the framebuffer
completeness check does not report complete, construction aborts fatally
(panic), and a Context returned by `Context::new` was built from a run in
which the storage allocation succeeded and the completeness check
reported complete. -/
theorem context_new_all_or_abort (reg : ClassRegistry) (env : HostEnv)
    (st : HostState) :
    (∀ c st' reg', Context.new reg env st = .ok c st' reg' →
      env.renderbufferStorageOk = true ∧
        env.framebufferStatus = FRAMEBUFFER_COMPLETE) ∧
    (env.windowBuildOk = true → VIEW_CLASS ∉ reg →
      (env.renderbufferStorageOk = false ∨
        env.framebufferStatus ≠ FRAMEBUFFER_COMPLETE) →
      Context.new reg env st = .panicked) := by
  constructor
  · intro c st' reg' h
    by_cases hw : env.windowBuildOk = false
    · simp [Context.new, hw] at h
    · cases hcu : create_uiview_class reg with
      | none => simp [Context.new, hw, hcu] at h
      | some reg2 =>
        by_cases hr : env.renderbufferStorageOk = false
        · simp [Context.new, Context.init_context, hw, hcu, hr] at h
        · by_cases hf : env.framebufferStatus = FRAMEBUFFER_COMPLETE
          · exact ⟨by simpa using hr, hf⟩
          · simp [Context.new, Context.init_context, hw, hcu, hr, hf] at h
  · intro hw hreg hfail
    have hcu : create_uiview_class reg = some (VIEW_CLASS :: reg) := by
      simp [create_uiview_class, hreg]
    rcases hfail with hf | hf
    · simp [Context.new, Context.init_context, hw, hcu, hf]
    · simp [Context.new, Context.init_context, hw, hcu, hf]

/-- C3 witness: the theorem applied to a run in which the storage
allocation is denied: construction panics. -/
theorem context_new_all_or_abort_witness :
    Context.new [] ⟨true, 1, 2, true, false, FRAMEBUFFER_COMPLETE⟩ ⟨0⟩ =
      .panicked :=
  (context_new_all_or_abort [] ⟨true, 1, 2, true, false, FRAMEBUFFER_COMPLETE⟩
    ⟨0⟩).2 rfl (by simp [VIEW_CLASS]) (Or.inl rfl)

/-- C4 counterexample: with the host returning a null (`0`) context handle
and every later host call succeeding, `Context::new` returns the built
pair whose `eagl_context` field is the null handle — it does not return a
`CreationError` and does not stop building the surface. -/
theorem context_new_null_handle_continues :
    Context.new [] ⟨true, 0, 7, true, true, FRAMEBUFFER_COMPLETE⟩ ⟨9⟩ =
        .ok ⟨0, 7⟩ ⟨0⟩ [VIEW_CLASS] ∧
      Context.new [] ⟨true, 0, 7, true, true, FRAMEBUFFER_COMPLETE⟩ ⟨9⟩ ≠
        .err := by
  constructor
  · decide
  · decide

/-- C4 (amended): `Context::new` never inspects the rendering-context
handle: the handle produced by `create_context` — null included — is
stored unconditionally in the returned Context, and the `CreationError`
path is taken exactly when the window build fails, never because of a
null handle. -/
theorem context_new_ignores_null_handle (reg : ClassRegistry)
    (env : HostEnv) (st : HostState) :
    (∀ c st' reg', Context.new reg env st = .ok c st' reg' →
      c.eagl_context = env.eaglHandle) ∧
    (Context.new reg env st = .err ↔ env.windowBuildOk = false) := by
  constructor
  · intro c st' reg' h
    by_cases hw : env.windowBuildOk = false
    · simp [Context.new, hw] at h
    · cases hcu : create_uiview_class reg with
      | none => simp [Context.new, hw, hcu] at h
      | some reg2 =>
        cases hic : Context.init_context
            ⟨Context.create_context env, env.viewHandle⟩ env st with
        | none => simp [Context.new, hw, hcu, hic] at h
        | some st2 =>
          simp [Context.new, hw, hcu, hic] at h
          rw [← h.1]
          rfl
  · constructor
    · intro h
      by_cases hw : env.windowBuildOk = false
      · exact hw
      · exfalso
        cases hcu : create_uiview_class reg with
        | none => simp [Context.new, hw, hcu] at h
        | some reg2 =>
          cases hic : Context.init_context
              ⟨Context.create_context env, env.viewHandle⟩ env st with
          | none => simp [Context.new, hw, hcu, hic] at h
          | some st2 => simp [Context.new, hw, hcu, hic] at h
    · intro hw
      simp [Context.new, hw]

/-- C4 amended-theorem witness: the theorem applied to the null-handle run
of the counterexample: the Context that run returns carries the null
handle. -/
theorem context_new_ignores_null_handle_witness :
    (Context.mk 0 7).eagl_context = 0 :=
  (context_new_ignores_null_handle []
    ⟨true, 0, 7, true, true, FRAMEBUFFER_COMPLETE⟩ ⟨9⟩).1 ⟨0, 7⟩ ⟨0⟩
    [VIEW_CLASS] (by decide)

/-- C5: whenever `make_current` returns `Ok`, the host's thread-bound
current context is this handle's context: a subsequent `is_current` on
this context returns true, and `is_current` on any context with a
distinct native handle returns false — `is_current` is the identity
comparison of the host's current context with the handle's context. -/
theorem make_current_then_is_current (c other : Context)
    (st st' : HostState) (ok : Bool)
    (h : c.make_current st ok = (Except.ok (), st')) :
    c.is_current st' = true ∧
      (other.eagl_context ≠ c.eagl_context →
        other.is_current st' = false) := by
  cases ok with
  | false =>
    exfalso
    simp [Context.make_current, setCurrentContext, NO, YES] at h
  | true =>
    have hst' : ({ currentContext := c.eagl_context } : HostState) = st' := by
      simpa [Context.make_current, setCurrentContext] using h
    have hst : st' = { currentContext := c.eagl_context } := hst'.symm
    subst hst
    refine ⟨by simp [Context.is_current], fun hne => ?_⟩
    simp [Context.is_current]
    exact fun hh => hne hh.symm

/-- C5 witness: the theorem applied to a successful make-current of the
context with handle 1, checked against a context with handle 3. -/
theorem make_current_then_is_current_witness :
    Context.is_current ⟨1, 2⟩ ⟨1⟩ = true ∧
      ((Context.mk 3 4).eagl_context ≠ (Context.mk 1 2).eagl_context →
        Context.is_current ⟨3, 4⟩ ⟨1⟩ = false) :=
  make_current_then_is_current ⟨1, 2⟩ ⟨3, 4⟩ ⟨0⟩ ⟨1⟩ true (by
    simp [Context.make_current, setCurrentContext])

/-- C6: during construction, the result of the internal `make_current` is
discarded: when making the context current fails, the call produced the
error value, yet `init_context` still proceeds — whether it completes is
decided solely by the renderbuffer-storage answer and the framebuffer
status, and a make-current failure alone neither aborts nor surfaces an
error. -/
theorem init_context_discards_make_current (c : Context) (env : HostEnv)
    (st : HostState) (hmc : env.setCurrentOk = false) :
    (c.make_current st env.setCurrentOk).1 =
        Except.error
          (ContextError.IoError
            "EAGLContext::setCurrentContext unsuccessful") ∧
      ((Context.init_context c env st).isSome ↔
        (env.renderbufferStorageOk = true ∧
          env.framebufferStatus = FRAMEBUFFER_COMPLETE)) := by
  constructor
  · simp [Context.make_current, setCurrentContext, hmc, NO, YES]
  · by_cases h1 : env.renderbufferStorageOk = false
    · simp [Context.init_context, h1]
    · by_cases h2 : env.framebufferStatus = FRAMEBUFFER_COMPLETE
      · simp [Context.init_context, h1, h2]
      · simp [Context.init_context, h1, h2]

/-- C6 witness: the theorem applied to a run whose make-current fails but
whose framebuffer steps succeed: `init_context` completes. -/
theorem init_context_discards_make_current_witness :
    (Context.make_current ⟨1, 2⟩ ⟨0⟩
          (HostEnv.setCurrentOk
            ⟨true, 1, 2, false, true, FRAMEBUFFER_COMPLETE⟩)).1 =
        Except.error
          (ContextError.IoError
            "EAGLContext::setCurrentContext unsuccessful") ∧
      ((Context.init_context ⟨1, 2⟩
            ⟨true, 1, 2, false, true, FRAMEBUFFER_COMPLETE⟩ ⟨0⟩).isSome ↔
        ((true : Bool) = true ∧ FRAMEBUFFER_COMPLETE = FRAMEBUFFER_COMPLETE)) :=
  init_context_discards_make_current ⟨1, 2⟩
    ⟨true, 1, 2, false, true, FRAMEBUFFER_COMPLETE⟩ ⟨0⟩ rfl

/-- C7: `resize` is a no-op: for every width and height it returns and
leaves the Context and the host state unchanged. -/
theorem resize_noop (c : Context) (st : HostState) (w h : Nat) :
    Context.resize c st w h = (c, st) :=
  rfl

/-- C8: `get_proc_address` returns the null pointer for every NUL-free
symbol name the GLES library does not export, rather than failing, and
returns a non-null pointer for a symbol the library exports at a non-null
address, such as glClear. -/
theorem get_proc_address_null_for_unknown (c : Context) (lib : DynLib)
    (name : Bytes) (p : Int)
    (hname : name.contains 0 = false)
    (habsent : lib.symbols.lookup name = none)
    (hgl : lib.symbols.lookup glClearSym = some p) (hp : p ≠ 0) :
    c.get_proc_address lib name = some 0 ∧
      c.get_proc_address lib glClearSym = some p ∧ p ≠ 0 := by
  have hn : (0 : Nat) ∉ name := by simpa using hname
  have hg : (0 : Nat) ∉ glClearSym := by decide
  refine ⟨?_, ?_, hp⟩
  · simp [Context.get_proc_address, cstringNew, dlsym, hn, habsent]
  · simp [Context.get_proc_address, cstringNew, dlsym, hg, hgl]

/-- C8 witness: a concrete library exporting glClear at address 5 and a
lookup of a one-byte name it does not export. -/
theorem get_proc_address_null_for_unknown_witness :
    Context.get_proc_address ⟨1, 2⟩ ⟨[(glClearSym, 5)]⟩ [120] = some 0 ∧
      Context.get_proc_address ⟨1, 2⟩ ⟨[(glClearSym, 5)]⟩ glClearSym =
          some 5 ∧
        (5 : Int) ≠ 0 :=
  get_proc_address_null_for_unknown ⟨1, 2⟩ ⟨[(glClearSym, 5)]⟩ [120] 5
    (by decide) (by decide) (by decide) (by decide)

/-- C9: `get_pixel_format` is unimplemented: no call ever produces a
`PixelFormat` value — every call takes the panicking path. -/
theorem get_pixel_format_never_returns (c : Context) :
    c.get_pixel_format = none :=
  rfl

/-- C10: `get_proc_address` panics whenever the symbol name contains a NUL
byte, because `CString::new(addr).unwrap()` panics there; for every
NUL-free name the conversion succeeds and a pointer is returned. -/
theorem get_proc_address_nul_panics (c : Context) (lib : DynLib)
    (name : Bytes) :
    (name.contains 0 = true → c.get_proc_address lib name = none) ∧
      (name.contains 0 = false →
        (c.get_proc_address lib name).isSome = true) := by
  constructor
  · intro h
    have hn : (0 : Nat) ∈ name := by simpa using h
    simp [Context.get_proc_address, cstringNew, hn]
  · intro h
    have hn : (0 : Nat) ∉ name := by simpa using h
    simp [Context.get_proc_address, cstringNew, dlsym, hn]

/-- C10 witness: the theorem applied to a name holding a NUL byte (the
call panics) and to a NUL-free name (a pointer comes back). -/
theorem get_proc_address_nul_panics_witness :
    Context.get_proc_address ⟨1, 2⟩ ⟨[]⟩ [103, 0] = none ∧
      (Context.get_proc_address ⟨1, 2⟩ ⟨[]⟩ [103]).isSome = true :=
  ⟨(get_proc_address_nul_panics ⟨1, 2⟩ ⟨[]⟩ [103, 0]).1 (by decide),
    (get_proc_address_nul_panics ⟨1, 2⟩ ⟨[]⟩ [103]).2 (by decide)⟩
